import Mathlib

/-!
# Verification of the GVINS measurement-synchronization and dispatch core

Shallow embedding of `estimator/src/estimator_node.cpp`: the ingest
callbacks, the clock calibrator, the feature decimator, the measurement
synchronizer `getMeasurements`, the restart controller, and the IMU part of
the dispatcher loop `process`.

Timestamps and all sensor values are modelled as rationals (`ℚ`); the C++
source computes with IEEE doubles, but every comparison the theorems below
depend on is exact at the concrete inputs used.  Queues (`std::queue`) are
modelled as lists whose head is the queue front.  Reading `front()` of an
empty queue is undefined behaviour in C++; functions that may do so return
`Option` and yield `none` in that case.
-/

/-- Three-component vector of rationals (Eigen::Vector3d). -/
abbrev V3 : Type := ℚ × ℚ × ℚ

/-- An IMU message: timestamp (seconds), linear acceleration, angular
velocity (`sensor_msgs::Imu`, fields used by the node). -/
structure ImuMsg where
  t : ℚ
  a : V3
  w : V3
  deriving DecidableEq, Repr

/-- A visual feature frame: the node's synchronizer and decimator use only
the header timestamp (`sensor_msgs::PointCloud`). -/
structure FeatureMsg where
  t : ℚ
  deriving DecidableEq, Repr

/-- A GNSS observation epoch (`std::vector<ObsPtr>`): the node uses only its
timestamp `time2sec(gnss_meas[0]->time)`, modelled as the field `t`. -/
structure GnssEpoch where
  t : ℚ
  deriving DecidableEq, Repr

/-- Quaternion over `ℚ` (Eigen::Quaterniond, w-x-y-z). -/
structure Quat where
  qw : ℚ
  qx : ℚ
  qy : ℚ
  qz : ℚ
  deriving DecidableEq, Repr

/-- Hamilton product of two quaternions (Eigen `operator*`). -/
def quatMul (p q : Quat) : Quat :=
  ⟨p.qw * q.qw - p.qx * q.qx - p.qy * q.qy - p.qz * q.qz,
   p.qw * q.qx + p.qx * q.qw + p.qy * q.qz - p.qz * q.qy,
   p.qw * q.qy - p.qx * q.qz + p.qy * q.qw + p.qz * q.qx,
   p.qw * q.qz + p.qx * q.qy - p.qy * q.qx + p.qz * q.qw⟩

/-- Rotation of a vector by a quaternion, as Eigen's `_transformVector`:
`uv = 2 (qvec × v); v + qw * uv + qvec × uv` (assumes unit quaternion). -/
def quatRot (q : Quat) (v : V3) : V3 :=
  let ux := 2 * (q.qy * v.2.2 - q.qz * v.2.1)
  let uy := 2 * (q.qz * v.1 - q.qx * v.2.2)
  let uz := 2 * (q.qx * v.2.1 - q.qy * v.1)
  (v.1 + q.qw * ux + (q.qy * uz - q.qz * uy),
   v.2.1 + q.qw * uy + (q.qz * ux - q.qx * uz),
   v.2.2 + q.qw * uz + (q.qx * uy - q.qy * ux))

/-- Modelled from the spec: `Utility::deltaQ` (header `utility/utility.h`,
not under `src/`), the small-angle quaternion increment
`δQ(θ) ≈ [1, θ/2]` of §4.4 of the specification. -/
def deltaQ (theta : V3) : Quat :=
  ⟨1, theta.1 / 2, theta.2.1 / 2, theta.2.2 / 2⟩

/-- Componentwise vector sum. -/
def v3add (u v : V3) : V3 := (u.1 + v.1, u.2.1 + v.2.1, u.2.2 + v.2.2)

/-- Componentwise vector difference. -/
def v3sub (u v : V3) : V3 := (u.1 - v.1, u.2.1 - v.2.1, u.2.2 - v.2.2)

/-- Scalar multiple of a vector. -/
def v3smul (c : ℚ) (v : V3) : V3 := (c * v.1, c * v.2.1, c * v.2.2)

/-- Calls the node makes into the estimator that the claims observe. -/
inductive EstCall : Type where
  | clearState : EstCall
  | setParameter : EstCall
  deriving DecidableEq, Repr

/-- One `processIMU(dt, a, ω)` call issued by the dispatcher loop. -/
structure ImuCall where
  dt : ℚ
  a : V3
  w : V3
  deriving DecidableEq, Repr

/-- A measurement bundle produced by `getMeasurements`: the drained IMU
slice `imu_msg` (including the copied straddling sample as its last
element), the popped feature frame `img_msg`, and the paired GNSS epoch
when one was popped (`gnss_msg`, empty vector in C++ modelled as `none`). -/
structure Bundle where
  imu_msg : List ImuMsg
  img_msg : FeatureMsg
  gnss_msg : Option GnssEpoch
  deriving DecidableEq, Repr

/-- Compile-time configuration the node reads: `GNSS_ENABLE` and the
estimator's time offset `td` (`estimator_ptr->td`). -/
structure Config where
  gnssEnable : Bool
  td : ℚ
  deriving DecidableEq, Repr

/-- The file-scope mutable state of `estimator_node.cpp` that the claims
touch.  Queue heads are queue fronts.  `init_imu = true` means the next IMU
sample is treated as the first one by `predict` (the mechanizer is
uninitialized). -/
structure NodeState where
  current_time : ℚ
  imu_buf : List ImuMsg
  feature_buf : List FeatureMsg
  gnss_meas_buf : List GnssEpoch
  relo_buf : List FeatureMsg
  sum_of_wait : ℕ
  latest_time : ℚ
  tmp_P : V3
  tmp_Q : Quat
  tmp_V : V3
  tmp_Ba : V3
  tmp_Bg : V3
  acc_0 : V3
  gyr_0 : V3
  init_imu : Bool
  last_imu_t : ℚ
  next_pulse_time : ℚ
  next_pulse_time_valid : Bool
  time_diff_gnss_local : ℚ
  time_diff_valid : Bool
  latest_gnss_time : ℚ
  tmp_last_feature_time : ℚ
  feature_msg_counter : ℕ
  skip_parameter : ℤ
  deriving DecidableEq, Repr

/-- The node state right after `main` finishes its initialisation
(`estimator_node.cpp:555-564`); file-scope numeric globals start
zero-initialised where `main` does not assign them, `tmp_Q` is an Eigen
default whose value never reaches any theorem below. -/
def initState (gnssEnable : Bool) : NodeState :=
  { current_time := -1
    imu_buf := []
    feature_buf := []
    gnss_meas_buf := []
    relo_buf := []
    sum_of_wait := 0
    latest_time := 0
    tmp_P := (0, 0, 0)
    tmp_Q := ⟨1, 0, 0, 0⟩
    tmp_V := (0, 0, 0)
    tmp_Ba := (0, 0, 0)
    tmp_Bg := (0, 0, 0)
    acc_0 := (0, 0, 0)
    gyr_0 := (0, 0, 0)
    init_imu := true
    last_imu_t := -1
    next_pulse_time := 0
    next_pulse_time_valid := false
    time_diff_gnss_local := 0
    time_diff_valid := false
    latest_gnss_time := -1
    tmp_last_feature_time := -1
    feature_msg_counter := 0
    skip_parameter := if gnssEnable then -1 else 0 }

/-- `MAX_GNSS_CAMERA_DELAY` (`estimator_node.cpp:21`). -/
def MAX_GNSS_CAMERA_DELAY : ℚ := 1 / 20

/-- IMU mechanization `predict` (`estimator_node.cpp:69-127`): mid-point
integration of the pose/velocity prediction, with `g` the estimator's
gravity vector. -/
def predict (g : V3) (imu_msg : ImuMsg) (s : NodeState) : NodeState :=
  let t := imu_msg.t
  if s.init_imu then
    { s with latest_time := t, init_imu := false }
  else
    let dt := t - s.latest_time
    let linear_acceleration := imu_msg.a
    let angular_velocity := imu_msg.w
    let un_acc_0 := v3sub (quatRot s.tmp_Q (v3sub s.acc_0 s.tmp_Ba)) g
    let un_gyr := v3sub (v3smul (1/2) (v3add s.gyr_0 angular_velocity)) s.tmp_Bg
    let tmp_Q' := quatMul s.tmp_Q (deltaQ (v3smul dt un_gyr))
    let un_acc_1 := v3sub (quatRot tmp_Q' (v3sub linear_acceleration s.tmp_Ba)) g
    let un_acc := v3smul (1/2) (v3add un_acc_0 un_acc_1)
    { s with
      latest_time := t
      tmp_Q := tmp_Q'
      tmp_P := v3add s.tmp_P (v3add (v3smul dt s.tmp_V) (v3smul (1/2 * dt * dt) un_acc))
      tmp_V := v3add s.tmp_V (v3smul dt un_acc)
      acc_0 := linear_acceleration
      gyr_0 := angular_velocity }

/-- `imu_callback` (`estimator_node.cpp:233-257`): drop out-of-order
samples with a warning; otherwise record `last_imu_t`, enqueue, and run the
high-rate mechanization `predict` (publishing is not modelled). -/
def imu_callback (g : V3) (imu_msg : ImuMsg) (s : NodeState) : NodeState :=
  if imu_msg.t ≤ s.last_imu_t then
    s
  else
    let s1 := { s with last_imu_t := imu_msg.t, imu_buf := s.imu_buf ++ [imu_msg] }
    predict g imu_msg s1

/-- `gnss_meas_callback` (`estimator_node.cpp:296-309`): always record the
epoch time in `latest_gnss_time`, then drop the epoch unless the clock
offset is valid, else enqueue it. -/
def gnss_meas_callback (gnss_meas : GnssEpoch) (s : NodeState) : NodeState :=
  let s1 := { s with latest_gnss_time := gnss_meas.t }
  if ¬ s1.time_diff_valid then s1
  else { s1 with gnss_meas_buf := s1.gnss_meas_buf ++ [gnss_meas] }

/-- `feature_callback` (`estimator_node.cpp:316-344`): increment the
message counter; while the decimation parity is undecided and the clock
offset is valid, decide it once a positive GNSS time and a positive
previous feature time are recorded; enqueue iff the parity test passes. -/
def feature_callback (feature_msg : FeatureMsg) (s : NodeState) : NodeState :=
  let s1 := { s with feature_msg_counter := s.feature_msg_counter + 1 }
  let s2 :=
    if s1.skip_parameter < 0 ∧ s1.time_diff_valid then
      let this_feature_ts := feature_msg.t + s1.time_diff_gnss_local
      let s3 :=
        if s1.latest_gnss_time > 0 ∧ s1.tmp_last_feature_time > 0 then
          if |this_feature_ts - s1.latest_gnss_time| >
              |s1.tmp_last_feature_time - s1.latest_gnss_time| then
            { s1 with skip_parameter := (s1.feature_msg_counter : ℤ) % 2 }
          else
            { s1 with skip_parameter := 1 - (s1.feature_msg_counter : ℤ) % 2 }
        else s1
      { s3 with tmp_last_feature_time := this_feature_ts }
    else s1
  if (0 : ℤ) ≤ s2.skip_parameter ∧ ¬ (((s2.feature_msg_counter : ℤ) % 2) = s2.skip_parameter) then
    { s2 with feature_buf := s2.feature_buf ++ [feature_msg] }
  else s2

/-- `local_trigger_info_callback` (`estimator_node.cpp:354-371`): if a PPS
pulse time has been recorded, set the clock offset to pulse time minus the
trigger's local time, mark it valid and publish it to the estimator
(`inputGNSSTimeDiff`, returned as `some Δ`). -/
def local_trigger_info_callback (trigger_t : ℚ) (s : NodeState) : NodeState × Option ℚ :=
  if s.next_pulse_time_valid then
    let d := s.next_pulse_time - trigger_t
    ({ s with time_diff_gnss_local := d, time_diff_valid := true }, some d)
  else (s, none)

/-- `gnss_tp_info_callback` (`estimator_node.cpp:378-401`): after the
external GNSS-time conversions (library `gnss_comm`, out of scope, the
converted seconds value is the argument), record the pulse time and mark a
pulse as pending. -/
def gnss_tp_info_callback (gnss_ts : ℚ) (s : NodeState) : NodeState :=
  { s with next_pulse_time := gnss_ts, next_pulse_time_valid := true }

/-- `restart_callback` (`estimator_node.cpp:403-422`): on `data = true`,
flush the feature and IMU queues, call `clearState` then `setParameter` on
the estimator (returned as the call trace), and reset `current_time` to
`-1` and `last_imu_t` to `0`. -/
def restart_callback (data : Bool) (s : NodeState) : NodeState × List EstCall :=
  if data then
    ({ s with feature_buf := [], imu_buf := [], current_time := -1, last_imu_t := 0 },
     [EstCall.clearState, EstCall.setParameter])
  else (s, [])

/-- Stale-feature drop loop of `getMeasurements`
(`estimator_node.cpp:175-180`): the feature queue is `f :: rest`; while the
front IMU timestamp exceeds the front feature timestamp, pop the feature
and read the new front's timestamp.  That read happens before the loop
guard re-checks emptiness, so popping the last feature reads the front of
an empty queue: `none` marks that undefined behaviour.  On `some (f1, r1)`
the remaining feature queue is `f1 :: r1` and the loop's running variable
`front_feature_ts` ends equal to `f1.t`. -/
def throwStaleFeatures (front_imu_ts : ℚ) (f : FeatureMsg) (rest : List FeatureMsg) :
    Option (FeatureMsg × List FeatureMsg) :=
  if front_imu_ts > f.t then
    match rest with
    | [] => none
    | f2 :: r2 => throwStaleFeatures front_imu_ts f2 r2
  else some (f, rest)

/-- Stale-GNSS drop loop of `getMeasurements`
(`estimator_node.cpp:190-196`): the GNSS queue is `g :: rest`; while the
front epoch is older than `front_feature_ts - MAX_GNSS_CAMERA_DELAY`, pop
it; if the pop empties the queue the function returns false immediately
(`none` here, with the pops persisting in the caller).  On `some (g1, r1)`
the remaining GNSS queue is `g1 :: r1`. -/
def throwStaleGnss (front_feature_ts : ℚ) (g : GnssEpoch) (rest : List GnssEpoch) :
    Option (GnssEpoch × List GnssEpoch) :=
  if g.t < front_feature_ts - MAX_GNSS_CAMERA_DELAY then
    match rest with
    | [] => none
    | g2 :: r2 => throwStaleGnss front_feature_ts g2 r2
  else some (g, rest)

/-- IMU drain loop of `getMeasurements` (`estimator_node.cpp:217-222`):
move every front sample with `t < limit` into the slice, then copy (without
popping) the first sample with `t ≥ limit`.  The loop guard reads
`imu_buf.front()` without an emptiness check, so draining the whole queue
is undefined behaviour (`none`).  On `some (slice, rem)`, `slice` is the
extracted `imu_msg` vector (straddling sample last) and `rem` the remaining
queue (straddling sample still at its front). -/
def drainImu (limit : ℚ) : List ImuMsg → Option (List ImuMsg × List ImuMsg)
  | [] => none
  | i :: rest =>
    if i.t < limit then
      match drainImu limit rest with
      | none => none
      | some (slice, rem) => some (i :: slice, rem)
    else some ([i], i :: rest)

/-- `getMeasurements` (`estimator_node.cpp:156-226`).  Result: `none` when
the C++ code reads the front of an empty queue (undefined behaviour);
`some (none, s')` when the function returns `false` with post-state `s'`;
`some (some b, s')` when it returns `true` with bundle `b`.  The back of
the IMU queue `imu_buf.back()` is `irest.getLastD i0` for queue
`i0 :: irest`; the pairing test and the no-pairing fall-through of
`estimator_node.cpp:206-210` are written as one `if` over the same
condition. -/
def getMeasurements (cfg : Config) (s : NodeState) : Option (Option Bundle × NodeState) :=
  match s.imu_buf, s.feature_buf, s.gnss_meas_buf with
  | [], _, _ => some (none, s)
  | _ :: _, [], _ => some (none, s)
  | i0 :: irest, f0 :: frest, gbuf =>
    if cfg.gnssEnable = true ∧ gbuf = [] then some (none, s)
    else if ¬ ((irest.getLastD i0).t > f0.t) then
      some (none, { s with sum_of_wait := s.sum_of_wait + 1 })
    else
      match throwStaleFeatures i0.t f0 frest with
      | none => none
      | some (img, frest') =>
        if cfg.gnssEnable = true then
          match gbuf with
          | [] => none
          | g0 :: grest =>
            match throwStaleGnss (img.t + s.time_diff_gnss_local) g0 grest with
            | none =>
              some (none, { s with feature_buf := img :: frest', gnss_meas_buf := [] })
            | some (g1, grest') =>
              if |g1.t - (img.t + s.time_diff_gnss_local)| < MAX_GNSS_CAMERA_DELAY then
                match drainImu (img.t + cfg.td) (i0 :: irest) with
                | none => none
                | some (slice, irem) =>
                  some (some ⟨slice, img, some g1⟩,
                    { s with imu_buf := irem, feature_buf := frest', gnss_meas_buf := grest' })
              else
                match drainImu (img.t + cfg.td) (i0 :: irest) with
                | none => none
                | some (slice, irem) =>
                  some (some ⟨slice, img, none⟩,
                    { s with imu_buf := irem, feature_buf := frest',
                             gnss_meas_buf := g1 :: grest' })
        else
          match drainImu (img.t + cfg.td) (i0 :: irest) with
          | none => none
          | some (slice, irem) =>
            some (some ⟨slice, img, none⟩,
              { s with imu_buf := irem, feature_buf := frest' })

/-- One iteration of the dispatcher's IMU loop (`estimator_node.cpp:446-487`,
Step 2 of `process`).  The accumulator carries `current_time`, the running
`(dx,dy,dz)` and `(rx,ry,rz)` registers, and the `processIMU` call trace. -/
def stepIMU (img_t : ℚ) (acc : ℚ × V3 × V3 × List ImuCall) (imu_data : ImuMsg) :
    ℚ × V3 × V3 × List ImuCall :=
  let (ct, pa, pw, calls) := acc
  let t := imu_data.t
  if t ≤ img_t then
    let ct0 := if ct < 0 then t else ct
    let dt := t - ct0
    (t, imu_data.a, imu_data.w, calls ++ [⟨dt, imu_data.a, imu_data.w⟩])
  else
    let dt_1 := img_t - ct
    let dt_2 := t - img_t
    let w1 := dt_2 / (dt_1 + dt_2)
    let w2 := dt_1 / (dt_1 + dt_2)
    let a1 := v3add (v3smul w1 pa) (v3smul w2 imu_data.a)
    let w1v := v3add (v3smul w1 pw) (v3smul w2 imu_data.w)
    (img_t, a1, w1v, calls ++ [⟨dt_1, a1, w1v⟩])

/-- The dispatcher's IMU loop over a bundle's slice: `current_time` enters
as `ct0` (`-1` right after startup), `img_t = img.t + td` is recomputed per
iteration in the source, the `dx..rz` registers start at `0` for each
bundle.  Returns the final `current_time` and the `processIMU` call
trace. -/
def processIMULoop (td img_ts ct0 : ℚ) (slice : List ImuMsg) : ℚ × List ImuCall :=
  let r := slice.foldl (stepIMU (img_ts + td)) (ct0, (0, 0, 0), (0, 0, 0), [])
  (r.1, r.2.2.2)

/-- Stale-GNSS scenario input (spec §8 scenario 4): feature at `t = 10.00`,
IMU bracketing it, GNSS epochs `[9.80, 9.95, 10.02]`, `Δ = 0`. -/
def c1state : NodeState :=
  { initState true with
      imu_buf := [⟨999/100, (0, 0, 0), (0, 0, 0)⟩, ⟨1001/100, (0, 0, 0), (0, 0, 0)⟩]
      feature_buf := [⟨10⟩]
      gnss_meas_buf := [⟨49/5⟩, ⟨199/20⟩, ⟨501/50⟩]
      time_diff_gnss_local := 0 }

/-- Configuration for the stale-GNSS scenario: GNSS enabled, `td = 0`. -/
def c1cfg : Config := ⟨true, 0⟩

/-- Bundle `getMeasurements` produces on `c1state`: no GNSS epoch is
paired (`|9.95 − 10.00| = 0.05` is not `< 0.05`). -/
def c1bundle : Bundle :=
  ⟨[⟨999/100, (0, 0, 0), (0, 0, 0)⟩, ⟨1001/100, (0, 0, 0), (0, 0, 0)⟩], ⟨10⟩, none⟩

/-- Post-state of `getMeasurements` on `c1state`: only epoch `9.80` was
discarded; `9.95` remains at the front. -/
def c1after : NodeState :=
  { c1state with
      imu_buf := [⟨1001/100, (0, 0, 0), (0, 0, 0)⟩]
      feature_buf := []
      gnss_meas_buf := [⟨199/20⟩, ⟨501/50⟩] }

/-- Boundary input for the spanning condition: IMU at `t = 5, 5.5`,
features at `t = 1, 5.5`, `td = 0`, GNSS disabled.  The stale feature `1`
is dropped and the frame at `5.5` is emitted although no queued IMU sample
has `t > 5.5`. -/
def c2state : NodeState :=
  { initState false with
      imu_buf := [⟨5, (0, 0, 0), (0, 0, 0)⟩, ⟨11/2, (0, 0, 0), (0, 0, 0)⟩]
      feature_buf := [⟨1⟩, ⟨11/2⟩] }

/-- Configuration for the spanning-condition boundary input. -/
def c2cfg : Config := ⟨false, 0⟩

/-- Bundle emitted on `c2state`: the straddling sample has `t = 5.5`
exactly equal to `img.t + td`. -/
def c2bundle : Bundle :=
  ⟨[⟨5, (0, 0, 0), (0, 0, 0)⟩, ⟨11/2, (0, 0, 0), (0, 0, 0)⟩], ⟨11/2⟩, none⟩

/-- Post-state of `getMeasurements` on `c2state`. -/
def c2after : NodeState :=
  { c2state with
      imu_buf := [⟨11/2, (0, 0, 0), (0, 0, 0)⟩]
      feature_buf := [] }

/-- Straddle-interpolation scenario input (spec §8 scenario 1): IMU at
`t = 0.00, 0.01, 0.02` with `a = (0,0,10), (0,0,10), (0,0,20)`, `ω = 0`;
feature at `t = 0.015`; `td = 0`; first bundle after startup. -/
def c3state : NodeState :=
  { initState false with
      imu_buf := [⟨0, (0, 0, 10), (0, 0, 0)⟩, ⟨1/100, (0, 0, 10), (0, 0, 0)⟩,
                  ⟨1/50, (0, 0, 20), (0, 0, 0)⟩]
      feature_buf := [⟨3/200⟩] }

/-- Configuration for the straddle-interpolation scenario. -/
def c3cfg : Config := ⟨false, 0⟩

/-- IMU slice of the bundle emitted on `c3state`. -/
def c3slice : List ImuMsg :=
  [⟨0, (0, 0, 10), (0, 0, 0)⟩, ⟨1/100, (0, 0, 10), (0, 0, 0)⟩, ⟨1/50, (0, 0, 20), (0, 0, 0)⟩]

/-- Bundle emitted on `c3state`: the slice is `c3slice` and there is no
GNSS epoch. -/
def c3bundle : Bundle := ⟨c3slice, ⟨3/200⟩, none⟩

/-- Post-state of `getMeasurements` on `c3state`: the straddling sample at
`t = 0.02` stays at the front of the IMU queue. -/
def c3after : NodeState :=
  { c3state with imu_buf := [⟨1/50, (0, 0, 20), (0, 0, 0)⟩], feature_buf := [] }

/-- The `processIMU` trace the dispatcher produces on the `c3state`
bundle: three calls, the first with `dt = 0`, the third (straddling) with
`dt = 0.005` and the interpolated acceleration `(0, 0, 15)`. -/
def c3calls : List ImuCall :=
  [⟨0, (0, 0, 10), (0, 0, 0)⟩, ⟨1/100, (0, 0, 10), (0, 0, 0)⟩,
   ⟨1/200, (0, 0, 15), (0, 0, 0)⟩]

/-- Decimator state for spec §8 scenario 2 at the arrival of the `0.050`
frame: `Δ = 0` valid, last GNSS time `0.000`, previous feature time
`0.000`, one feature already counted. -/
def c4state : NodeState :=
  { initState true with
      time_diff_valid := true
      time_diff_gnss_local := 0
      latest_gnss_time := 0
      tmp_last_feature_time := 0
      feature_msg_counter := 1
      skip_parameter := -1 }

/-- Scenario 2 continued: state after the `0.050` frame and the GNSS epoch
at `0.100` (which is buffered, since `Δ` is valid). -/
def c4stateB : NodeState :=
  gnss_meas_callback ⟨1/10⟩ (feature_callback ⟨1/20⟩ c4state)

/-- Scenario 2 continued: state after the feature frame at `0.100`. -/
def c4stateC : NodeState :=
  feature_callback ⟨1/10⟩ c4stateB

/-- Scenario 2 continued: state after the feature frame at `0.150`. -/
def c4stateD : NodeState :=
  feature_callback ⟨3/20⟩ c4stateC

/-- Restart scenario input (spec §8 scenario 6): 3 IMU and 2 feature
messages buffered, one GNSS epoch, mechanizer already initialized, clock
offset calibrated. -/
def c5state : NodeState :=
  { initState true with
      imu_buf := [⟨1, (0, 0, 0), (0, 0, 0)⟩, ⟨2, (0, 0, 0), (0, 0, 0)⟩,
                  ⟨3, (0, 0, 0), (0, 0, 0)⟩]
      feature_buf := [⟨1⟩, ⟨2⟩]
      gnss_meas_buf := [⟨3/2⟩]
      init_imu := false
      last_imu_t := 3
      current_time := 2
      time_diff_valid := true
      time_diff_gnss_local := 5
      next_pulse_time := 7
      next_pulse_time_valid := true }

/-- Clock-calibration scenario input: a pulse at GNSS time `100` is
pending. -/
def c6state : NodeState :=
  { initState true with next_pulse_time := 100, next_pulse_time_valid := true }

/-- State after the first trigger (local time `1`) on `c6state`. -/
def c6state1 : NodeState := (local_trigger_info_callback 1 c6state).1

/-- State after a second trigger (local time `2`) with no pulse in
between. -/
def c6state2 : NodeState := (local_trigger_info_callback 2 c6state1).1

/-- Out-of-order IMU scenario (spec §8 scenario 5): samples at `t = 1.00`
then `t = 0.99` fed to `imu_callback` from the startup state. -/
def c7state : NodeState :=
  imu_callback (0, 0, 0) ⟨99/100, (0, 0, 0), (0, 0, 0)⟩
    (imu_callback (0, 0, 0) ⟨1, (0, 0, 0), (0, 0, 0)⟩ (initState false))

/-- Empty-front scenario input: IMU queue `[5.0]`, feature queue `[1.0]`,
GNSS disabled.  The wake-up precondition holds (both queues non-empty and
the newest IMU timestamp `5.0` exceeds the oldest feature timestamp
`1.0`). -/
def c8state : NodeState :=
  { initState false with
      imu_buf := [⟨5, (0, 0, 0), (0, 0, 0)⟩]
      feature_buf := [⟨1⟩] }

/-- Configuration for the empty-front scenario. -/
def c8cfg : Config := ⟨false, 0⟩

/-- Start state of the never-buffered-epoch scenario: a pulse at GNSS time
`2` is pending, clock offset not yet valid. -/
def c10state : NodeState :=
  { initState true with next_pulse_time := 2, next_pulse_time_valid := true }

/-- The GNSS epoch at `t = 1` arrives while the offset is invalid: it is
dropped without buffering, but `latest_gnss_time` becomes `1`. -/
def c10stateA : NodeState := gnss_meas_callback ⟨1⟩ c10state

/-- A trigger at local time `2` then calibrates `Δ = 0`. -/
def c10stateB : NodeState := (local_trigger_info_callback 2 c10stateA).1

/-- Features at `0.90` and `0.95` arrive; the second one locks the
decimation parity by comparing against `latest_gnss_time = 1`, the
timestamp of the epoch that was never enqueued. -/
def c10stateD : NodeState :=
  feature_callback ⟨19/20⟩ (feature_callback ⟨9/10⟩ c10stateB)

/-- Counterfactual run without the GNSS epoch: the same trigger and the
same two features, starting from `c10state`. -/
def c10stateD' : NodeState :=
  feature_callback ⟨19/20⟩
    (feature_callback ⟨9/10⟩ (local_trigger_info_callback 2 c10state).1)

/-! ## Helper lemmas -/

theorem predict_imu_buf (g : V3) (m : ImuMsg) (s : NodeState) :
    (predict g m s).imu_buf = s.imu_buf := by
  unfold predict
  split <;> rfl

theorem predict_last_imu_t (g : V3) (m : ImuMsg) (s : NodeState) :
    (predict g m s).last_imu_t = s.last_imu_t := by
  unfold predict
  split <;> rfl

theorem throwStaleGnss_spec (ft : ℚ) :
    ∀ (rest : List GnssEpoch) (g g1 : GnssEpoch) (rest' : List GnssEpoch),
      throwStaleGnss ft g rest = some (g1, rest') →
      ∃ dropped, g :: rest = dropped ++ g1 :: rest' ∧
        (∀ e ∈ dropped, e.t < ft - MAX_GNSS_CAMERA_DELAY) ∧
        ¬ (g1.t < ft - MAX_GNSS_CAMERA_DELAY) := by
  intro rest
  induction rest with
  | nil =>
    intro g g1 rest' h
    unfold throwStaleGnss at h
    split at h
    · exact absurd h (by simp)
    · simp only [Option.some.injEq, Prod.mk.injEq] at h
      obtain ⟨rfl, rfl⟩ := h
      exact ⟨[], rfl, by simp, by assumption⟩
  | cons g2 r2 ih =>
    intro g g1 rest' h
    unfold throwStaleGnss at h
    split at h
    · rcases ih g2 g1 rest' h with ⟨dropped, hsplit, hall, hfront⟩
      refine ⟨g :: dropped, by simp [hsplit], ?_, hfront⟩
      intro e he
      rcases List.mem_cons.mp he with he | he
      · subst he; assumption
      · exact hall e he
    · simp only [Option.some.injEq, Prod.mk.injEq] at h
      obtain ⟨rfl, rfl⟩ := h
      exact ⟨[], rfl, by simp, by assumption⟩

theorem drainImu_spec (limit : ℚ) :
    ∀ (l slice rem : List ImuMsg), drainImu limit l = some (slice, rem) →
      ∃ pre straddle, slice = pre ++ [straddle] ∧
        (∀ x ∈ pre, x.t < limit) ∧ ¬ straddle.t < limit ∧
        l = pre ++ rem ∧ rem.head? = some straddle := by
  intro l
  induction l with
  | nil => intro slice rem h; exact absurd h (by simp [drainImu])
  | cons i rest ih =>
    intro slice rem h
    unfold drainImu at h
    split at h
    · cases hrec : drainImu limit rest with
      | none => rw [hrec] at h; exact absurd h (by simp)
      | some pr =>
        obtain ⟨slice0, rem0⟩ := pr
        rw [hrec] at h
        simp only [Option.some.injEq, Prod.mk.injEq] at h
        obtain ⟨rfl, rfl⟩ := h
        rcases ih slice0 rem0 hrec with ⟨pre, straddle, hs, hall, hstr, hsum, hhead⟩
        refine ⟨i :: pre, straddle, by simp [hs], ?_, hstr, by simp [hsum], hhead⟩
        intro x hx
        rcases List.mem_cons.mp hx with hx | hx
        · subst hx; assumption
        · exact hall x hx
    · simp only [Option.some.injEq, Prod.mk.injEq] at h
      obtain ⟨rfl, rfl⟩ := h
      exact ⟨[], i, rfl, by simp, by assumption, rfl, rfl⟩

/-- Inversion of a successful `getMeasurements` run: recovers the queue
shapes, the stale-feature drop, the GNSS alignment branch taken, and the
IMU drain, for use by the per-claim theorems. -/
theorem getMeasurements_true_spec (cfg : Config) (s : NodeState) (b : Bundle) (s' : NodeState)
    (h : getMeasurements cfg s = some (some b, s')) :
    ∃ i0 irest f0 frest img frest' slice irem,
      s.imu_buf = i0 :: irest ∧ s.feature_buf = f0 :: frest ∧
      throwStaleFeatures i0.t f0 frest = some (img, frest') ∧
      drainImu (img.t + cfg.td) (i0 :: irest) = some (slice, irem) ∧
      b.imu_msg = slice ∧ b.img_msg = img ∧ s'.imu_buf = irem ∧ s'.feature_buf = frest' ∧
      (cfg.gnssEnable = true →
        ∃ g0 grest g1 grest',
          s.gnss_meas_buf = g0 :: grest ∧
          throwStaleGnss (img.t + s.time_diff_gnss_local) g0 grest = some (g1, grest') ∧
          ((|g1.t - (img.t + s.time_diff_gnss_local)| < MAX_GNSS_CAMERA_DELAY ∧
             b.gnss_msg = some g1 ∧ s'.gnss_meas_buf = grest') ∨
           (¬ |g1.t - (img.t + s.time_diff_gnss_local)| < MAX_GNSS_CAMERA_DELAY ∧
             b.gnss_msg = none ∧ s'.gnss_meas_buf = g1 :: grest'))) ∧
      (cfg.gnssEnable = false → b.gnss_msg = none ∧ s'.gnss_meas_buf = s.gnss_meas_buf) := by
  unfold getMeasurements at h
  split at h
  · simp at h
  · simp at h
  · rename_i i0 irest f0 frest himu hfeat
    split at h
    · simp at h
    · split at h
      · simp at h
      · split at h
        · simp at h
        · rename_i img frest' hthrow
          split at h
          · rename_i hen
            split at h
            · simp at h
            · rename_i g0 grest hgbuf
              split at h
              · simp at h
              · rename_i g1 grest' hgthrow
                split at h
                · rename_i hnear
                  split at h
                  · simp at h
                  · rename_i slice irem hdrain
                    simp only [Option.some.injEq, Prod.mk.injEq] at h
                    obtain ⟨hb, hs'⟩ := h
                    refine ⟨i0, irest, f0, frest, img, frest', slice, irem,
                      himu, hfeat, hthrow, hdrain, ?_, ?_, ?_, ?_, ?_, ?_⟩
                    · rw [← hb]
                    · rw [← hb]
                    · rw [← hs']
                    · rw [← hs']
                    · intro _
                      exact ⟨g0, grest, g1, grest', hgbuf, hgthrow,
                        Or.inl ⟨hnear, by rw [← hb], by rw [← hs']⟩⟩
                    · intro hfalse; rw [hen] at hfalse; simp at hfalse
                · rename_i hfar
                  split at h
                  · simp at h
                  · rename_i slice irem hdrain
                    simp only [Option.some.injEq, Prod.mk.injEq] at h
                    obtain ⟨hb, hs'⟩ := h
                    refine ⟨i0, irest, f0, frest, img, frest', slice, irem,
                      himu, hfeat, hthrow, hdrain, ?_, ?_, ?_, ?_, ?_, ?_⟩
                    · rw [← hb]
                    · rw [← hb]
                    · rw [← hs']
                    · rw [← hs']
                    · intro _
                      exact ⟨g0, grest, g1, grest', hgbuf, hgthrow,
                        Or.inr ⟨hfar, by rw [← hb], by rw [← hs']⟩⟩
                    · intro hfalse; rw [hen] at hfalse; simp at hfalse
          · rename_i hen
            split at h
            · simp at h
            · rename_i slice irem hdrain
              simp only [Option.some.injEq, Prod.mk.injEq] at h
              obtain ⟨hb, hs'⟩ := h
              refine ⟨i0, irest, f0, frest, img, frest', slice, irem,
                himu, hfeat, hthrow, hdrain, ?_, ?_, ?_, ?_, ?_, ?_⟩
              · rw [← hb]
              · rw [← hb]
              · rw [← hs']
              · rw [← hs']
              · intro htrue; exact absurd htrue hen
              · intro _
                exact ⟨by rw [← hb], by rw [← hs']⟩

/-! ## Claim C1 -/

/-- C1 (amended).  For every bundle constructed by the synchronizer with
GNSS enabled, the GNSS queue splits as `dropped ++ g1 :: rest`: every
discarded front epoch satisfied `t_gnss < (t_feat + Δ) − 0.05`, the first
retained epoch `g1` does not, and the bundle contains a GNSS epoch iff
`|g1.t − (t_feat + Δ)| < 0.05`, in which case `g1` is popped; otherwise the
visual frame is still emitted without GNSS.  Amendment of the concrete
example: with `Δ = 0`, a front feature at `t = 10.00` and queued GNSS
epochs `[9.80, 9.95, 10.02]`, only `9.80` is dropped (`9.95 ≮ 9.95`), and
since `|9.95 − 10.00| = 0.05` is not `< 0.05` no epoch is paired: the
frame is emitted without GNSS and `[9.95, 10.02]` stay queued. -/
theorem c1_gnss_alignment :
    (∀ (cfg : Config) (s : NodeState) (b : Bundle) (s' : NodeState),
      cfg.gnssEnable = true → getMeasurements cfg s = some (some b, s') →
      ∃ dropped g1 rest,
        s.gnss_meas_buf = dropped ++ g1 :: rest ∧
        (∀ e ∈ dropped, e.t < b.img_msg.t + s.time_diff_gnss_local - MAX_GNSS_CAMERA_DELAY) ∧
        ¬ (g1.t < b.img_msg.t + s.time_diff_gnss_local - MAX_GNSS_CAMERA_DELAY) ∧
        (b.gnss_msg.isSome = true ↔
          |g1.t - (b.img_msg.t + s.time_diff_gnss_local)| < MAX_GNSS_CAMERA_DELAY) ∧
        (|g1.t - (b.img_msg.t + s.time_diff_gnss_local)| < MAX_GNSS_CAMERA_DELAY →
          b.gnss_msg = some g1 ∧ s'.gnss_meas_buf = rest) ∧
        (¬ |g1.t - (b.img_msg.t + s.time_diff_gnss_local)| < MAX_GNSS_CAMERA_DELAY →
          b.gnss_msg = none ∧ s'.gnss_meas_buf = g1 :: rest)) ∧
    (getMeasurements c1cfg c1state = some (some c1bundle, c1after) ∧
      c1bundle.gnss_msg = none ∧
      c1after.gnss_meas_buf = [⟨199/20⟩, ⟨501/50⟩]) := by
  constructor
  · intro cfg s b s' hen h
    obtain ⟨i0, irest, f0, frest, img, frest', slice, irem,
      himu, hfeat, hthrow, hdrain, hbi, hbimg, hsi, hsf, hg, _⟩ :=
      getMeasurements_true_spec cfg s b s' h
    obtain ⟨g0, grest, g1, grest', hgbuf, hgthrow, hcase⟩ := hg hen
    obtain ⟨dropped, hsplit, hall, hfront⟩ :=
      throwStaleGnss_spec (img.t + s.time_diff_gnss_local) grest g0 g1 grest' hgthrow
    subst hbimg
    refine ⟨dropped, g1, grest', by rw [hgbuf, hsplit], hall, hfront, ?_, ?_, ?_⟩
    · rcases hcase with ⟨hnear, hbg, _⟩ | ⟨hfar, hbg, _⟩
      · simp only [hbg, Option.isSome_some]
        exact iff_of_true trivial hnear
      · simp only [hbg, Option.isSome_none]
        exact iff_of_false (by simp) hfar
    · intro hnear
      rcases hcase with ⟨_, hbg, hsg⟩ | ⟨hfar, _, _⟩
      · exact ⟨hbg, hsg⟩
      · exact absurd hnear hfar
    · intro hfar
      rcases hcase with ⟨hnear, _, _⟩ | ⟨_, hbg, hsg⟩
      · exact absurd hnear hfar
      · exact ⟨hbg, hsg⟩
  · refine ⟨?_, by simp [c1bundle], by simp [c1after]⟩
    simp [getMeasurements, c1cfg, c1state, initState, c1bundle, c1after,
      throwStaleFeatures, throwStaleGnss, drainImu, MAX_GNSS_CAMERA_DELAY,
      List.getLastD, abs_of_nonneg]
    norm_num [abs_of_nonneg]

/-- C1 witness: the general part of `c1_gnss_alignment` applied to the
concrete stale-GNSS scenario. -/
theorem c1_gnss_alignment_witness :
    ∃ dropped g1 rest,
      c1state.gnss_meas_buf = dropped ++ g1 :: rest ∧
      (∀ e ∈ dropped,
        e.t < c1bundle.img_msg.t + c1state.time_diff_gnss_local - MAX_GNSS_CAMERA_DELAY) ∧
      ¬ (g1.t < c1bundle.img_msg.t + c1state.time_diff_gnss_local - MAX_GNSS_CAMERA_DELAY) ∧
      (c1bundle.gnss_msg.isSome = true ↔
        |g1.t - (c1bundle.img_msg.t + c1state.time_diff_gnss_local)| < MAX_GNSS_CAMERA_DELAY) ∧
      (|g1.t - (c1bundle.img_msg.t + c1state.time_diff_gnss_local)| < MAX_GNSS_CAMERA_DELAY →
        c1bundle.gnss_msg = some g1 ∧ c1after.gnss_meas_buf = rest) ∧
      (¬ |g1.t - (c1bundle.img_msg.t + c1state.time_diff_gnss_local)| < MAX_GNSS_CAMERA_DELAY →
        c1bundle.gnss_msg = none ∧ c1after.gnss_meas_buf = g1 :: rest) :=
  c1_gnss_alignment.1 c1cfg c1state c1bundle c1after rfl c1_gnss_alignment.2.1

/-- C1 counterexample: at the claim's own input (`Δ = 0`, feature `10.00`,
GNSS epochs `[9.80, 9.95, 10.02]`), the epoch `9.95` is not dropped and
`10.02` is not paired: the bundle carries no GNSS epoch and `9.95` is
still at the front of the queue afterwards. -/
theorem c1_gnss_alignment_counterexample :
    getMeasurements c1cfg c1state = some (some c1bundle, c1after) ∧
    c1bundle.gnss_msg ≠ some ⟨501/50⟩ ∧
    c1bundle.gnss_msg = none ∧
    c1after.gnss_meas_buf = [⟨199/20⟩, ⟨501/50⟩] := by
  refine ⟨?_, by simp [c1bundle], by simp [c1bundle], by simp [c1after]⟩
  simp [getMeasurements, c1cfg, c1state, initState, c1bundle, c1after,
    throwStaleFeatures, throwStaleGnss, drainImu, MAX_GNSS_CAMERA_DELAY,
    List.getLastD, abs_of_nonneg]
  norm_num [abs_of_nonneg]

/-! ## Claim C2 -/

/-- C2 (amended).  For every bundle emitted by the synchronizer the last
sample of the extracted IMU slice has timestamp `≥ img.t + td` and every
earlier slice sample has timestamp `< img.t + td` (so the second-to-last
sample is `≤ img.t + td`); a feature frame is handed downstream only when
the IMU queue contains at least one sample with `t_imu ≥ t_feat + td`
(the source admits equality: the drain loop stops at the first sample with
`t ≥ img.t + td`, so no strictly later sample need exist). -/
theorem c2_imu_slice_spans (cfg : Config) (s : NodeState) (b : Bundle) (s' : NodeState)
    (h : getMeasurements cfg s = some (some b, s')) :
    (∃ last, b.imu_msg.getLast? = some last ∧ b.img_msg.t + cfg.td ≤ last.t) ∧
    (∀ x ∈ b.imu_msg.dropLast, x.t < b.img_msg.t + cfg.td) ∧
    (∃ m ∈ s.imu_buf, b.img_msg.t + cfg.td ≤ m.t) := by
  obtain ⟨i0, irest, f0, frest, img, frest', slice, irem,
    himu, hfeat, hthrow, hdrain, hbi, hbimg, hsi, hsf, _, _⟩ :=
    getMeasurements_true_spec cfg s b s' h
  obtain ⟨pre, straddle, hslice, hpre, hstr, hsum, hhead⟩ :=
    drainImu_spec (img.t + cfg.td) (i0 :: irest) slice irem hdrain
  subst hbimg
  have hstr' : b.img_msg.t + cfg.td ≤ straddle.t := not_lt.mp hstr
  refine ⟨⟨straddle, ?_, hstr'⟩, ?_, ?_⟩
  · rw [hbi, hslice, List.getLast?_concat]
  · intro x hx
    rw [hbi, hslice, List.dropLast_concat] at hx
    exact hpre x hx
  · refine ⟨straddle, ?_, hstr'⟩
    rw [himu, hsum]
    cases irem with
    | nil => simp at hhead
    | cons a t =>
      simp only [List.head?_cons, Option.some.injEq] at hhead
      subst hhead
      exact List.mem_append_right _ (List.mem_cons_self _ _)

/-- C2 witness: `c2_imu_slice_spans` applied to the stale-GNSS scenario
bundle. -/
theorem c2_imu_slice_spans_witness :
    (∃ last, c1bundle.imu_msg.getLast? = some last ∧
      c1bundle.img_msg.t + c1cfg.td ≤ last.t) ∧
    (∀ x ∈ c1bundle.imu_msg.dropLast, x.t < c1bundle.img_msg.t + c1cfg.td) ∧
    (∃ m ∈ c1state.imu_buf, c1bundle.img_msg.t + c1cfg.td ≤ m.t) :=
  c2_imu_slice_spans c1cfg c1state c1bundle c1after (by
    simp [getMeasurements, c1cfg, c1state, initState, c1bundle, c1after,
      throwStaleFeatures, throwStaleGnss, drainImu, MAX_GNSS_CAMERA_DELAY,
      List.getLastD, abs_of_nonneg]
    norm_num [abs_of_nonneg])

/-- C2 counterexample: with IMU queue `[5.0, 5.5]`, feature queue
`[1.0, 5.5]`, `td = 0` and GNSS disabled, the frame at `5.5` is emitted
although no sample in the IMU queue satisfies the claimed strict bound
`t_imu > t_feat + td`. -/
theorem c2_imu_slice_spans_counterexample :
    getMeasurements c2cfg c2state = some (some c2bundle, c2after) ∧
    (∀ m ∈ c2state.imu_buf, ¬ (c2bundle.img_msg.t + c2cfg.td < m.t)) := by
  constructor
  · simp [getMeasurements, c2cfg, c2state, initState, c2bundle, c2after,
      throwStaleFeatures, drainImu, List.getLastD]
    norm_num
  · intro m hm
    simp [c2state, initState] at hm
    rcases hm with hm | hm <;> (simp [hm, c2bundle, c2cfg]; try norm_num)

/-! ## Claim C3 -/

/-- C3 (amended).  On the first bundle after startup with IMU samples at
`t = 0.00, 0.01, 0.02`, accelerations `(0,0,10), (0,0,10), (0,0,20)`, zero
angular velocity, a feature at `t = 0.015` and `td = 0`, the dispatcher
makes exactly three `process_imu` calls: the first with `dt = 0` (the
first sample initialises `current_time`), the second with `dt = 0.01`, and
the third (straddling) call with `dt = 0.005` and acceleration `(0,0,15)`
obtained by linear interpolation with weights `w1 = dt2/(dt1+dt2)`,
`w2 = dt1/(dt1+dt2)`. -/
theorem c3_straddle_interpolation :
    getMeasurements c3cfg c3state = some (some c3bundle, c3after) ∧
    processIMULoop c3cfg.td c3bundle.img_msg.t (-1) c3bundle.imu_msg = (3/200, c3calls) ∧
    c3calls.length = 3 := by
  refine ⟨?_, ?_, rfl⟩
  · simp [getMeasurements, c3cfg, c3state, initState, c3bundle, c3after, c3slice,
      throwStaleFeatures, drainImu, List.getLastD]
    norm_num
  · simp [processIMULoop, stepIMU, c3bundle, c3slice, c3calls, c3cfg,
      v3add, v3smul]
    norm_num

/-- C3 counterexample: the dispatcher makes three `process_imu` calls on
the scenario bundle, not two; the straddling interpolated call
(`dt = 0.005`, `a = (0,0,15)`) is the third. -/
theorem c3_straddle_interpolation_counterexample :
    (processIMULoop c3cfg.td c3bundle.img_msg.t (-1) c3bundle.imu_msg).2.length ≠ 2 ∧
    (processIMULoop c3cfg.td c3bundle.img_msg.t (-1) c3bundle.imu_msg).2.getLast? =
      some ⟨1/200, (0, 0, 15), (0, 0, 0)⟩ := by
  have h : processIMULoop c3cfg.td c3bundle.img_msg.t (-1) c3bundle.imu_msg =
      (3/200, c3calls) := by
    simp [processIMULoop, stepIMU, c3bundle, c3slice, c3calls, c3cfg,
      v3add, v3smul]
    norm_num
  rw [h]
  exact ⟨by simp [c3calls], by simp [c3calls]⟩

/-! ## Claim C4 -/

/-- C4 (amended).  Every arriving feature frame increments the counter;
while the parity is undecided (`skip_parameter < 0`) and `Δ` is valid, the
parity is decided on the comparison of GNSS-aligned timestamps only once
both the last GNSS timestamp and the previous feature timestamp are
strictly positive (the code tests `> 0`, so a recorded time of exactly
`0.000` counts as unknown); once `skip_parameter ≥ 0` a frame is enqueued
iff `counter mod 2 ≠ skip_parameter`.  Amendment of scenario 2: with last
GNSS time `0.000` the `> 0` test fails, so the `0.050` frame leaves
`skip_parameter = −1` and is dropped only because the parity is still
undecided; the parity locks to `0` at the `0.100` frame (counter `3`, keep
branch), after which `0.100` is kept and `0.150` dropped as listed. -/
theorem c4_feature_decimator :
    (∀ (s : NodeState) (m : FeatureMsg),
      (feature_callback m s).feature_msg_counter = s.feature_msg_counter + 1) ∧
    (∀ (s : NodeState) (m : FeatureMsg),
      s.skip_parameter < 0 → s.time_diff_valid = true →
      s.latest_gnss_time > 0 → s.tmp_last_feature_time > 0 →
      (feature_callback m s).skip_parameter =
        (if |m.t + s.time_diff_gnss_local - s.latest_gnss_time| >
            |s.tmp_last_feature_time - s.latest_gnss_time|
         then ((s.feature_msg_counter + 1 : ℕ) : ℤ) % 2
         else 1 - ((s.feature_msg_counter + 1 : ℕ) : ℤ) % 2)) ∧
    (∀ (s : NodeState) (m : FeatureMsg),
      0 ≤ s.skip_parameter →
      (feature_callback m s).skip_parameter = s.skip_parameter ∧
      ((feature_callback m s).feature_buf = s.feature_buf ++ [m] ↔
        ¬ (((s.feature_msg_counter + 1 : ℕ) : ℤ) % 2 = s.skip_parameter))) ∧
    ((feature_callback ⟨1/20⟩ c4state).feature_buf = [] ∧
     c4stateC.skip_parameter = 0 ∧ c4stateC.feature_buf = [⟨1/10⟩] ∧
     c4stateD.feature_buf = [⟨1/10⟩] ∧ c4stateD.skip_parameter = 0) := by
  refine ⟨?_, ?_, ?_, ?_⟩
  · intro s m
    simp only [feature_callback]
    split <;> (try split) <;> (try split) <;> (try split) <;> simp
  · intro s m hlt hval hg htmp
    simp only [feature_callback, hval, hlt, hg, htmp, and_self, if_true, and_true, true_and,
      gt_iff_lt, if_pos]
    split <;> split <;> simp
  · intro s m hge
    have hns : ¬ (s.skip_parameter < 0) := not_lt.mpr hge
    simp only [feature_callback, hns, false_and, if_false]
    split <;> simp_all
  · refine ⟨?_, ?_, ?_, ?_, ?_⟩
    · simp [feature_callback, c4state, initState]
      try norm_num
    all_goals
      (simp [c4stateD, c4stateC, c4stateB, feature_callback, gnss_meas_callback,
        c4state, initState, abs_of_nonneg]; try norm_num [abs_of_nonneg])

/-- C4 witness: the parity-locked part of `c4_feature_decimator` applied
to the decided state of scenario 2 (`skip_parameter = 0`) and the `0.150`
frame. -/
theorem c4_feature_decimator_witness :
    (feature_callback ⟨3/20⟩ c4stateC).skip_parameter = c4stateC.skip_parameter ∧
    ((feature_callback ⟨3/20⟩ c4stateC).feature_buf = c4stateC.feature_buf ++ [⟨3/20⟩] ↔
      ¬ (((c4stateC.feature_msg_counter + 1 : ℕ) : ℤ) % 2 = c4stateC.skip_parameter)) :=
  c4_feature_decimator.2.2.1 c4stateC ⟨3/20⟩ (by
    simp [c4stateC, c4stateB, feature_callback, gnss_meas_callback, c4state, initState,
      abs_of_nonneg]
    try norm_num [abs_of_nonneg])

/-- C4 counterexample: at the claim's own input (`Δ = 0` valid, prior
feature time `0.000`, last GNSS time `0.000`, incoming feature at `0.050`
as the second frame), `skip_parameter` stays `−1` instead of becoming `0`:
the code requires the recorded times to be strictly positive. -/
theorem c4_feature_decimator_counterexample :
    (feature_callback ⟨1/20⟩ c4state).skip_parameter = -1 ∧
    ¬ ((feature_callback ⟨1/20⟩ c4state).skip_parameter = 0) := by
  have h : (feature_callback ⟨1/20⟩ c4state).skip_parameter = -1 := by
    simp [feature_callback, c4state, initState]
    try norm_num
  exact ⟨h, by rw [h]; decide⟩

/-! ## Claim C5 -/

/-- C5 (amended).  On a restart signal with `data = true` the IMU and
feature queues are emptied while the GNSS queue is preserved,
`clearState` then `setParameter` are invoked, `current_time` is reset to
`−1` and `last_imu_t` to `0`; the mechanizer's `init_imu` flag and the
whole clock-calibration state `{Δ, valid, pending pulse}` are left
unchanged (the source never touches `init_imu`, so the next IMU sample
does not re-initialize mechanization). -/
theorem c5_restart (s : NodeState) :
    (restart_callback true s).1.imu_buf = [] ∧
    (restart_callback true s).1.feature_buf = [] ∧
    (restart_callback true s).1.gnss_meas_buf = s.gnss_meas_buf ∧
    (restart_callback true s).1.relo_buf = s.relo_buf ∧
    (restart_callback true s).2 = [EstCall.clearState, EstCall.setParameter] ∧
    (restart_callback true s).1.current_time = -1 ∧
    (restart_callback true s).1.last_imu_t = 0 ∧
    (restart_callback true s).1.init_imu = s.init_imu ∧
    (restart_callback true s).1.time_diff_gnss_local = s.time_diff_gnss_local ∧
    (restart_callback true s).1.time_diff_valid = s.time_diff_valid ∧
    (restart_callback true s).1.next_pulse_time = s.next_pulse_time ∧
    (restart_callback true s).1.next_pulse_time_valid = s.next_pulse_time_valid := by
  simp [restart_callback]

/-- C5 counterexample: restarting from a state whose mechanizer is already
initialized (`init_imu = false`) leaves `init_imu = false`; the claim's
assertion that the initialized flag is cleared (so that the next IMU
sample re-initializes mechanization) is false. -/
theorem c5_restart_counterexample :
    c5state.init_imu = false ∧
    (restart_callback true c5state).1.init_imu = false ∧
    ¬ ((restart_callback true c5state).1.init_imu = true) := by
  refine ⟨by simp [c5state, initState], ?_, ?_⟩ <;>
    simp [restart_callback, c5state, initState]

/-! ## Claim C6 -/

/-- C6 (amended).  A trigger at local time `t` with a pulse pending sets
`Δ = next_pulse_time − t`, marks the offset valid, and publishes `Δ` to
the estimator; a trigger with no pulse pending changes nothing and
publishes nothing.  The pending-pulse flag, however, is NOT consumed
(`next_pulse_time_valid` stays `true`), so a second trigger arriving
before the next pulse recomputes `Δ` against the same pulse time rather
than being a no-op. -/
theorem c6_trigger_calibration (s : NodeState) (t_local : ℚ) :
    (s.next_pulse_time_valid = true →
      local_trigger_info_callback t_local s =
        ({ s with time_diff_gnss_local := s.next_pulse_time - t_local,
                  time_diff_valid := true },
         some (s.next_pulse_time - t_local)) ∧
      (local_trigger_info_callback t_local s).1.next_pulse_time_valid = true) ∧
    (s.next_pulse_time_valid = false →
      local_trigger_info_callback t_local s = (s, none)) := by
  constructor
  · intro hp
    simp [local_trigger_info_callback, hp]
  · intro hp
    simp [local_trigger_info_callback, hp]

/-- C6 witness: `c6_trigger_calibration` applied to the pending-pulse
scenario state and the first trigger. -/
theorem c6_trigger_calibration_witness :
    local_trigger_info_callback 1 c6state =
      ({ c6state with time_diff_gnss_local := c6state.next_pulse_time - 1,
                      time_diff_valid := true },
       some (c6state.next_pulse_time - 1)) ∧
    (local_trigger_info_callback 1 c6state).1.next_pulse_time_valid = true :=
  (c6_trigger_calibration c6state 1).1 (by simp [c6state, initState])

/-- C6 counterexample: after a pulse at GNSS time `100` and a trigger at
local time `1` (`Δ = 99`), a second trigger at local time `2` arriving
before any new pulse recomputes `Δ = 98` and re-publishes it — not the
no-op the claim asserts. -/
theorem c6_trigger_calibration_counterexample :
    c6state1.time_diff_gnss_local = 99 ∧
    c6state1.next_pulse_time_valid = true ∧
    c6state2.time_diff_gnss_local = 98 ∧
    (local_trigger_info_callback 2 c6state1).2 = some 98 ∧
    ¬ (c6state2.time_diff_gnss_local = c6state1.time_diff_gnss_local) := by
  refine ⟨?_, ?_, ?_, ?_, ?_⟩ <;>
    (simp [c6state2, c6state1, c6state, local_trigger_info_callback, initState];
     try norm_num)

/-! ## Claim C7 -/

/-- C7.  An IMU sample whose timestamp is not beyond the last accepted one
is dropped, leaving the whole node state (queue, `last_imu_t`, and the
mechanization fields) unchanged; consequently, over any sequence of IMU
callbacks the timestamps appended to the IMU queue are strictly increasing
and all exceed the starting `last_imu_t`.  Concretely, after samples at
`t = 1.00` then `t = 0.99` the queue holds only the first and `last_imu_t`
remains `1.00`. -/
theorem c7_imu_disorder :
    (∀ (g : V3) (m : ImuMsg) (s : NodeState),
      m.t ≤ s.last_imu_t → imu_callback g m s = s) ∧
    (∀ (g : V3) (msgs : List ImuMsg) (s : NodeState),
      ∃ news,
        (List.foldl (fun st mm => imu_callback g mm st) s msgs).imu_buf =
          s.imu_buf ++ news ∧
        List.Chain' (fun x y : ImuMsg => x.t < y.t) news ∧
        (∀ x ∈ news, s.last_imu_t < x.t)) ∧
    (c7state.imu_buf = [⟨1, (0, 0, 0), (0, 0, 0)⟩] ∧ c7state.last_imu_t = 1) := by
  refine ⟨?_, ?_, ?_⟩
  · intro g m s h
    simp [imu_callback, h]
  · intro g msgs
    induction msgs with
    | nil => intro s; exact ⟨[], by simp, by simp, by simp⟩
    | cons m rest ih =>
      intro s
      rw [List.foldl_cons]
      by_cases h : m.t ≤ s.last_imu_t
      · have hdrop : imu_callback g m s = s := by simp [imu_callback, h]
        rw [hdrop]
        exact ih s
      · have hbuf1 : (imu_callback g m s).imu_buf = s.imu_buf ++ [m] := by
          simp [imu_callback, h, predict_imu_buf]
        have hlast1 : (imu_callback g m s).last_imu_t = m.t := by
          simp [imu_callback, h, predict_last_imu_t]
        obtain ⟨news, hbuf, hchain, hgt⟩ := ih (imu_callback g m s)
        refine ⟨m :: news, ?_, ?_, ?_⟩
        · rw [hbuf, hbuf1, List.append_assoc]
          rfl
        · refine List.chain'_cons'.mpr ⟨?_, hchain⟩
          intro y hy
          have hlt := hgt y (List.mem_of_mem_head? hy)
          rwa [hlast1] at hlt
        · intro x hx
          rcases List.mem_cons.mp hx with rfl | hx
          · exact not_le.mp h
          · have hlt := hgt x hx
            rw [hlast1] at hlt
            exact lt_trans (not_le.mp h) hlt
  · constructor <;>
      (simp [c7state, imu_callback, predict, initState]; try norm_num)

/-- C7 witness: the drop clause of `c7_imu_disorder` applied to the
out-of-order sample at `t = 0.99` after the sample at `t = 1.00`. -/
theorem c7_imu_disorder_witness :
    imu_callback (0, 0, 0) ⟨99/100, (0, 0, 0), (0, 0, 0)⟩
      (imu_callback (0, 0, 0) ⟨1, (0, 0, 0), (0, 0, 0)⟩ (initState false)) =
    imu_callback (0, 0, 0) ⟨1, (0, 0, 0), (0, 0, 0)⟩ (initState false) :=
  c7_imu_disorder.1 (0, 0, 0) ⟨99/100, (0, 0, 0), (0, 0, 0)⟩
    (imu_callback (0, 0, 0) ⟨1, (0, 0, 0), (0, 0, 0)⟩ (initState false)) (by
      simp [imu_callback, predict, initState]
      norm_num)

/-! ## Claim C8 -/

/-- C8 (the code violates it).  With IMU queue `[5.0]` and feature queue
`[1.0]` (GNSS disabled) the wake-up precondition of the synchronizer holds
— both queues non-empty and the newest IMU timestamp `5.0` exceeds the
oldest feature timestamp `1.0` — yet `getMeasurements` pops the lone stale
feature and then reads the front of the now-empty feature queue
(`estimator_node.cpp:179`), which the embedding reports as the undefined
behaviour marker `none`. -/
theorem c8_empty_front_access :
    c8state.imu_buf = [⟨5, (0, 0, 0), (0, 0, 0)⟩] ∧
    c8state.feature_buf = [⟨1⟩] ∧ (5 : ℚ) > 1 ∧
    getMeasurements c8cfg c8state = none := by
  refine ⟨by simp [c8state, initState], by simp [c8state, initState], by norm_num, ?_⟩
  simp [getMeasurements, c8cfg, c8state, initState, throwStaleFeatures, List.getLastD]
  try norm_num

/-! ## Claim C9 -/

/-- C9.  Whenever `getMeasurements` returns `false`, running it again
immediately on the resulting state — with no new messages pushed in
between — returns `false` again and leaves all four queues exactly as the
first run left them. -/
theorem c9_sync_idempotent (cfg : Config) (s s' : NodeState)
    (h : getMeasurements cfg s = some (none, s')) :
    ∃ s'', getMeasurements cfg s' = some (none, s'') ∧
      s''.imu_buf = s'.imu_buf ∧ s''.feature_buf = s'.feature_buf ∧
      s''.gnss_meas_buf = s'.gnss_meas_buf ∧ s''.relo_buf = s'.relo_buf := by
  unfold getMeasurements at h
  split at h
  · rename_i himu
    simp only [Option.some.injEq, Prod.mk.injEq, true_and] at h
    subst h
    exact ⟨s, by simp [getMeasurements, himu], rfl, rfl, rfl, rfl⟩
  · rename_i a b himu hfeat
    simp only [Option.some.injEq, Prod.mk.injEq, true_and] at h
    subst h
    exact ⟨s, by simp [getMeasurements, himu, hfeat], rfl, rfl, rfl, rfl⟩
  · rename_i i0 irest f0 frest himu hfeat
    split at h
    · rename_i hcond
      simp only [Option.some.injEq, Prod.mk.injEq, true_and] at h
      subst h
      exact ⟨s, by simp [getMeasurements, himu, hfeat, hcond.1, hcond.2], rfl, rfl, rfl, rfl⟩
    · rename_i hcond
      split at h
      · rename_i hw
        simp only [Option.some.injEq, Prod.mk.injEq, true_and] at h
        subst h
        refine ⟨{ s with sum_of_wait := s.sum_of_wait + 1 + 1 }, ?_, rfl, rfl, rfl, rfl⟩
        have hw' : ¬ f0.t < (irest.getLast?.getD i0).t := by
          simpa [List.getLastD_eq_getLast?] using hw
        simp [getMeasurements, himu, hfeat, hcond, hw']
      · rename_i hw
        split at h
        · simp at h
        · rename_i img frest2 hthrow
          split at h
          · rename_i hen
            split at h
            · simp at h
            · rename_i g0 grest hgbuf
              split at h
              · rename_i hgthrow
                simp only [Option.some.injEq, Prod.mk.injEq, true_and] at h
                subst h
                refine ⟨_, ?_, rfl, rfl, rfl, rfl⟩
                simp [getMeasurements, himu, hen]
              · split at h
                · split at h
                  · simp at h
                  · simp at h
                · split at h
                  · simp at h
                  · simp at h
          · split at h
            · simp at h
            · simp at h

/-- C9 witness: `c9_sync_idempotent` applied to the empty startup state,
on which the synchronizer returns `false` without touching anything. -/
theorem c9_sync_idempotent_witness :
    ∃ s'', getMeasurements ⟨false, 0⟩ (initState false) = some (none, s'') ∧
      s''.imu_buf = (initState false).imu_buf ∧
      s''.feature_buf = (initState false).feature_buf ∧
      s''.gnss_meas_buf = (initState false).gnss_meas_buf ∧
      s''.relo_buf = (initState false).relo_buf :=
  c9_sync_idempotent ⟨false, 0⟩ (initState false) (initState false)
    (by simp [getMeasurements, initState])

/-! ## Claim C10 -/

/-- C10.  Every arriving GNSS observation epoch updates
`latest_gnss_time` before the clock-offset validity check, even when the
offset is invalid and the epoch is dropped without being buffered; the
feature decimator's parity decision can therefore be driven by the
timestamp of an epoch that was never enqueued: in the concrete run the
epoch at `t = 1` is dropped (queue stays empty) yet the second feature
frame locks `skip_parameter = 1` by comparing against it, while the same
run without that epoch leaves `skip_parameter = −1`. -/
theorem c10_latest_gnss_update :
    (∀ (s : NodeState) (e : GnssEpoch),
      (gnss_meas_callback e s).latest_gnss_time = e.t ∧
      (s.time_diff_valid = false →
        (gnss_meas_callback e s).gnss_meas_buf = s.gnss_meas_buf)) ∧
    (c10stateA.gnss_meas_buf = [] ∧ c10stateA.latest_gnss_time = 1 ∧
     c10stateD.skip_parameter = 1 ∧ c10stateD.feature_buf = [⟨19/20⟩] ∧
     c10stateD'.skip_parameter = -1) := by
  constructor
  · intro s e
    constructor
    · simp only [gnss_meas_callback]
      split <;> rfl
    · intro hv
      simp [gnss_meas_callback, hv]
  · refine ⟨?_, ?_, ?_, ?_, ?_⟩ <;>
      (simp [c10stateD, c10stateD', c10stateB, c10stateA, c10state,
        gnss_meas_callback, feature_callback, local_trigger_info_callback,
        initState, abs_of_nonneg, abs_of_nonpos];
       try norm_num [abs_of_nonneg, abs_of_nonpos])

/-- C10 witness: the universal part of `c10_latest_gnss_update` applied to
the invalid-offset scenario state and the epoch at `t = 1`. -/
theorem c10_latest_gnss_update_witness :
    (gnss_meas_callback ⟨1⟩ c10state).gnss_meas_buf = c10state.gnss_meas_buf :=
  (c10_latest_gnss_update.1 c10state ⟨1⟩).2 (by simp [c10state, initState])
